import Mathlib

/-!
Shallow embedding of the Pong Extreme server core:
`src/lib/game/physics.ts`, `src/lib/game/constants.ts`, `src/lib/game/types.ts`,
`src/lib/party/gameLogic.ts` and `src/lib/party/matchmakerLogic.ts`.

Numeric game quantities are modelled as real numbers; scores and the
countdown, which the code only ever holds at integer values, as integers.
`Math.random()` and `Date.now()` are modelled as explicit parameters
(`r`, `serveTo`, `now`, `roomId`) threaded into the functions that draw them.
-/

namespace Pong

noncomputable section

/-- `GameStatus` union type from types.ts. -/
inductive GameStatus
  | waiting
  | countdown
  | playing
  | paused
  | finished
deriving DecidableEq

/-- `PlayerRole` union type from types.ts. -/
inductive PlayerRole
  | host
  | guest
deriving DecidableEq

/-- The two player sides; `Winner` from types.ts is `Option Player`. -/
inductive Player
  | player1
  | player2
deriving DecidableEq

-- Constants from constants.ts
def ARENA_WIDTH : ℝ := 100
def ARENA_HEIGHT : ℝ := 100
def PADDLE_WIDTH : ℝ := 3
def PADDLE_HEIGHT : ℝ := 20
def PADDLE_MARGIN : ℝ := 2
def BALL_RADIUS : ℝ := 2
def BALL_INITIAL_SPEED : ℝ := 0.8
def BALL_MAX_SPEED : ℝ := 2.0
def BALL_SPEED_INCREMENT : ℝ := 0.05
def WINNING_SCORE : ℤ := 7
def COUNTDOWN_SECONDS : ℤ := 3
def GAME_TICK_RATE : ℝ := 1000 / 60

/-- `MAX_BOUNCE_ANGLE` from physics.ts (60 degrees in radians). -/
noncomputable def MAX_BOUNCE_ANGLE : ℝ := Real.pi / 3

/-- `PhysicsState` from physics.ts. -/
structure PhysicsState where
  ballX : ℝ
  ballY : ℝ
  ballVelX : ℝ
  ballVelY : ℝ
  paddle1Y : ℝ
  paddle2Y : ℝ

/-- `BallState` from physics.ts. -/
structure BallState where
  ballX : ℝ
  ballY : ℝ
  ballVelX : ℝ
  ballVelY : ℝ

/-- `updateBallPosition` from physics.ts. -/
def updateBallPosition (state : PhysicsState) : PhysicsState :=
  { state with
    ballX := state.ballX + state.ballVelX
    ballY := state.ballY + state.ballVelY }

/-- `checkWallCollision` from physics.ts: the second `if` reads the values
already updated by the first one, exactly as the JS mutates its locals. -/
noncomputable def checkWallCollision (state : PhysicsState) : PhysicsState :=
  let ballY1 := if state.ballY ≤ BALL_RADIUS then BALL_RADIUS else state.ballY
  let ballVelY1 := if state.ballY ≤ BALL_RADIUS then |state.ballVelY| else state.ballVelY
  let ballY2 := if ARENA_HEIGHT - BALL_RADIUS ≤ ballY1 then ARENA_HEIGHT - BALL_RADIUS else ballY1
  let ballVelY2 := if ARENA_HEIGHT - BALL_RADIUS ≤ ballY1 then -|ballVelY1| else ballVelY1
  { state with ballY := ballY2, ballVelY := ballVelY2 }

/-- `calculateBallAngle` from physics.ts. -/
noncomputable def calculateBallAngle (ballY paddleY : ℝ) : ℝ :=
  let relativeHit := (ballY - paddleY) / (PADDLE_HEIGHT / 2)
  let clampedHit := max (-1) (min 1 relativeHit)
  clampedHit * MAX_BOUNCE_ANGLE

/-- The guard of the left-paddle branch of `checkPaddleCollision`. -/
def leftPaddleHit (s : PhysicsState) : Prop :=
  s.ballVelX < 0 ∧
  s.ballX - BALL_RADIUS ≤ PADDLE_MARGIN + PADDLE_WIDTH ∧
  PADDLE_MARGIN ≤ s.ballX + BALL_RADIUS ∧
  s.paddle1Y - PADDLE_HEIGHT / 2 ≤ s.ballY ∧
  s.ballY ≤ s.paddle1Y + PADDLE_HEIGHT / 2

/-- The guard of the right-paddle branch of `checkPaddleCollision`. -/
def rightPaddleHit (s : PhysicsState) : Prop :=
  0 < s.ballVelX ∧
  ARENA_WIDTH - PADDLE_MARGIN - PADDLE_WIDTH ≤ s.ballX + BALL_RADIUS ∧
  s.ballX - BALL_RADIUS ≤ ARENA_WIDTH - PADDLE_MARGIN ∧
  s.paddle2Y - PADDLE_HEIGHT / 2 ≤ s.ballY ∧
  s.ballY ≤ s.paddle2Y + PADDLE_HEIGHT / 2

instance (s : PhysicsState) : Decidable (leftPaddleHit s) := by
  unfold leftPaddleHit; infer_instance

instance (s : PhysicsState) : Decidable (rightPaddleHit s) := by
  unfold rightPaddleHit; infer_instance

/-- `checkPaddleCollision` from physics.ts.  In the source the two branches
are sequential `if (...) return ...` statements; since their guards demand
`ballVelX < 0` and `ballVelX > 0` respectively, `if / else if` is the same
control flow. -/
noncomputable def checkPaddleCollision (state : PhysicsState) : PhysicsState :=
  let currentSpeed := Real.sqrt (state.ballVelX ^ 2 + state.ballVelY ^ 2)
  if leftPaddleHit state then
    let bounceAngle := calculateBallAngle state.ballY state.paddle1Y
    let newSpeed := min (currentSpeed + BALL_SPEED_INCREMENT) BALL_MAX_SPEED
    { state with
      ballX := PADDLE_MARGIN + PADDLE_WIDTH + BALL_RADIUS
      ballVelX := |newSpeed * Real.cos bounceAngle|
      ballVelY := newSpeed * Real.sin bounceAngle }
  else if rightPaddleHit state then
    let bounceAngle := calculateBallAngle state.ballY state.paddle2Y
    let newSpeed := min (currentSpeed + BALL_SPEED_INCREMENT) BALL_MAX_SPEED
    { state with
      ballX := ARENA_WIDTH - PADDLE_MARGIN - PADDLE_WIDTH - BALL_RADIUS
      ballVelX := -|newSpeed * Real.cos bounceAngle|
      ballVelY := newSpeed * Real.sin bounceAngle }
  else
    state

/-- `checkScoring` from physics.ts. -/
noncomputable def checkScoring (state : PhysicsState) : Option Player :=
  if state.ballX < -BALL_RADIUS then some Player.player2
  else if ARENA_WIDTH + BALL_RADIUS < state.ballX then some Player.player1
  else none

/-- `clampPaddlePosition` from physics.ts. -/
noncomputable def clampPaddlePosition (y : ℝ) : ℝ :=
  max (PADDLE_HEIGHT / 2) (min (ARENA_HEIGHT - PADDLE_HEIGHT / 2) y)

/-- `resetBall` from physics.ts. -/
def resetBall : BallState :=
  { ballX := 50, ballY := 50, ballVelX := 0, ballVelY := 0 }

/-- `startBall` from physics.ts.  The call `Math.random()` is modelled by
the parameter `r`; the source computes `angle = (r - 0.5) * (π / 2)`. -/
noncomputable def startBall (r : ℝ) (towardsPlayer : Player) : BallState :=
  let angle := (r - 0.5) * (Real.pi / 2)
  let direction : ℝ := if towardsPlayer = Player.player1 then -1 else 1
  { ballX := 50
    ballY := 50
    ballVelX := direction * BALL_INITIAL_SPEED * Real.cos angle
    ballVelY := BALL_INITIAL_SPEED * Real.sin angle }

/-- `physicsTick` from physics.ts; the pair is the `{state, scored}` object. -/
noncomputable def physicsTick (state : PhysicsState) : PhysicsState × Option Player :=
  let s1 := updateBallPosition state
  let s2 := checkWallCollision s1
  let s3 := checkPaddleCollision s2
  (s3, checkScoring s3)

/-- `GameState` from types.ts. -/
structure GameState where
  ballX : ℝ
  ballY : ℝ
  ballVelX : ℝ
  ballVelY : ℝ
  paddle1Y : ℝ
  paddle2Y : ℝ
  score1 : ℤ
  score2 : ℤ
  status : GameStatus
  winner : Option Player
  countdown : ℤ

/-- `PlayerInfo` from types.ts. -/
structure PlayerInfo where
  id : String
  username : String
  role : PlayerRole
deriving DecidableEq

/-- `GameServerState` from gameLogic.ts. -/
structure GameServerState where
  roomId : String
  players : List PlayerInfo
  gameState : GameState
  tickCount : ℕ

/-- `createInitialGameState` from types.ts. -/
def createInitialGameState : GameState :=
  { ballX := 50, ballY := 50, ballVelX := 0, ballVelY := 0
    paddle1Y := 50, paddle2Y := 50
    score1 := 0, score2 := 0
    status := GameStatus.waiting, winner := none, countdown := 0 }

/-- `createGameServerState` from gameLogic.ts. -/
def createGameServerState (roomId : String) : GameServerState :=
  { roomId := roomId, players := [], gameState := createInitialGameState, tickCount := 0 }

/-- `addPlayer` from gameLogic.ts. -/
def addPlayer (state : GameServerState) (connectionId username : String) : GameServerState :=
  if 2 ≤ state.players.length then state
  else
    let role : PlayerRole := if state.players.length = 0 then PlayerRole.host else PlayerRole.guest
    { state with players := state.players ++ [{ id := connectionId, username := username, role := role }] }

/-- `removePlayer` from gameLogic.ts.  `remainingPlayer?.role === 'host'`
is `newPlayers.head?.map PlayerInfo.role = some host`: when `newPlayers` is
empty the optional chain yields `undefined`, the comparison is false and the
winner is `'player2'`. -/
def removePlayer (state : GameServerState) (connectionId : String) : GameServerState :=
  match state.players.find? (fun p => p.id == connectionId) with
  | none => state
  | some _ =>
    let newPlayers := state.players.filter (fun p => p.id != connectionId)
    let newGameState :=
      if state.gameState.status = GameStatus.playing ∨ state.gameState.status = GameStatus.countdown then
        let winner : Option Player :=
          if newPlayers.head?.map PlayerInfo.role = some PlayerRole.host
          then some Player.player1 else some Player.player2
        { state.gameState with status := GameStatus.finished, winner := winner }
      else state.gameState
    { state with players := newPlayers, gameState := newGameState }

/-- `getPlayer` from gameLogic.ts. -/
def getPlayer (state : GameServerState) (connectionId : String) : Option PlayerInfo :=
  state.players.find? (fun p => p.id == connectionId)

/-- `updatePaddlePosition` from gameLogic.ts. -/
noncomputable def updatePaddlePosition (state : GameServerState) (connectionId : String) (y : ℝ) :
    GameServerState :=
  match getPlayer state connectionId with
  | none => state
  | some player =>
    let clampedY := clampPaddlePosition y
    if player.role = PlayerRole.host then
      { state with gameState := { state.gameState with paddle1Y := clampedY } }
    else
      { state with gameState := { state.gameState with paddle2Y := clampedY } }

/-- `startCountdown` from gameLogic.ts. -/
def startCountdown (state : GameServerState) : GameServerState :=
  if state.players.length < 2 then state
  else
    { state with gameState :=
      { state.gameState with status := GameStatus.countdown, countdown := COUNTDOWN_SECONDS } }

/-- `startGame` from gameLogic.ts.  `Math.random() < 0.5 ? 'player1' : 'player2'`
is modelled by the parameter `serveTo`, and `startBall`'s random draw by `r`. -/
noncomputable def startGame (serveTo : Player) (r : ℝ) (state : GameServerState) : GameServerState :=
  let ballState := startBall r serveTo
  { state with gameState :=
    { state.gameState with
      status := GameStatus.playing
      ballX := ballState.ballX
      ballY := ballState.ballY
      ballVelX := ballState.ballVelX
      ballVelY := ballState.ballVelY
      countdown := 0 } }

/-- `Math.round(1000 / GAME_TICK_RATE)` from `tick` in gameLogic.ts. -/
noncomputable def ticksPerSecond : ℤ := round ((1000 : ℝ) / GAME_TICK_RATE)

/-- `handleScoring` from gameLogic.ts.  The final object spread applies
`resetBall()` and then (when the game continues) `startBall(scorer)`, whose
fields overwrite the former's; both are transcribed in order. -/
noncomputable def handleScoring (r : ℝ) (state : GameServerState) (scorer : Player) :
    GameServerState :=
  let score1 := if scorer = Player.player1 then state.gameState.score1 + 1 else state.gameState.score1
  let score2 := if scorer = Player.player1 then state.gameState.score2 else state.gameState.score2 + 1
  let winner : Option Player :=
    if WINNING_SCORE ≤ score1 then some Player.player1
    else if WINNING_SCORE ≤ score2 then some Player.player2
    else none
  let status : GameStatus :=
    if WINNING_SCORE ≤ score1 then GameStatus.finished
    else if WINNING_SCORE ≤ score2 then GameStatus.finished
    else state.gameState.status
  let gs1 := { state.gameState with score1 := score1, score2 := score2, winner := winner, status := status }
  let gs2 :=
    if status = GameStatus.finished then gs1
    else
      let mid := { gs1 with
        ballX := resetBall.ballX
        ballY := resetBall.ballY
        ballVelX := resetBall.ballVelX
        ballVelY := resetBall.ballVelY }
      let sb := startBall r scorer
      { mid with
        ballX := sb.ballX
        ballY := sb.ballY
        ballVelX := sb.ballVelX
        ballVelY := sb.ballVelY }
  { state with gameState := gs2 }

/-- `tick` from gameLogic.ts.  The random draws inside `startGame` (serving
side and serve angle) and inside `handleScoring` (serve angle) are modelled
by the parameters `serveTo` and `r`. -/
noncomputable def tick (serveTo : Player) (r : ℝ) (state : GameServerState) : GameServerState :=
  if state.gameState.status = GameStatus.countdown then
    let newTickCount := state.tickCount + 1
    let newCountdown :=
      if (newTickCount : ℤ) % ticksPerSecond = 0
      then max 0 (state.gameState.countdown - 1)
      else state.gameState.countdown
    if newCountdown = 0 ∧ 0 < state.gameState.countdown then
      startGame serveTo r { state with tickCount := newTickCount }
    else
      { state with
        tickCount := newTickCount
        gameState := { state.gameState with countdown := newCountdown } }
  else if ¬ state.gameState.status = GameStatus.playing then
    state
  else
    let physicsState : PhysicsState :=
      { ballX := state.gameState.ballX
        ballY := state.gameState.ballY
        ballVelX := state.gameState.ballVelX
        ballVelY := state.gameState.ballVelY
        paddle1Y := state.gameState.paddle1Y
        paddle2Y := state.gameState.paddle2Y }
    let result := physicsTick physicsState
    let newState : GameServerState :=
      { state with
        tickCount := state.tickCount + 1
        gameState := { state.gameState with
          ballX := result.1.ballX
          ballY := result.1.ballY
          ballVelX := result.1.ballVelX
          ballVelY := result.1.ballVelY } }
    match result.2 with
    | some scorer => handleScoring r newState scorer
    | none => newState

/-- `isReadyToStart` from gameLogic.ts. -/
def isReadyToStart (state : GameServerState) : Prop :=
  state.players.length = 2 ∧ state.gameState.status = GameStatus.waiting

/-- `QueuedPlayer` from matchmakerLogic.ts; `joinedAt` is the `Date.now()`
timestamp. -/
structure QueuedPlayer where
  connectionId : String
  username : String
  joinedAt : ℕ
deriving DecidableEq

/-- `MatchmakerState` from matchmakerLogic.ts; the JS `Set<string>` is a
`Finset String`. -/
structure MatchmakerState where
  queue : List QueuedPlayer
  activeUsernames : Finset String
deriving DecidableEq

/-- `MatchResult` from matchmakerLogic.ts. -/
structure MatchResult where
  player1 : QueuedPlayer
  player2 : QueuedPlayer
  gameRoomId : String
deriving DecidableEq

/-- The `error` field values of `JoinQueueResult`. -/
inductive JoinError
  | USERNAME_TAKEN
  | INVALID_USERNAME
deriving DecidableEq

/-- `JoinQueueResult` from matchmakerLogic.ts; the optional `position` and
`error` fields are `Option`s. -/
structure JoinQueueResult where
  success : Bool
  state : MatchmakerState
  position : Option ℕ
  error : Option JoinError
deriving DecidableEq

/-- `FindMatchResult` from matchmakerLogic.ts (`matched` embeds the source's
`match` field, which is a Lean keyword). -/
structure FindMatchResult where
  state : MatchmakerState
  matched : Option MatchResult
deriving DecidableEq

/-- `createMatchmakerState` from matchmakerLogic.ts. -/
def createMatchmakerState : MatchmakerState :=
  { queue := [], activeUsernames := ∅ }

/-- JS `String.prototype.toLowerCase()`: lower-case every character (usernames
are restricted to ASCII `[a-zA-Z0-9_]`, where this is exact). -/
def lowercase (s : String) : String :=
  ⟨s.data.map Char.toLower⟩

/-- `isUsernameTaken` from matchmakerLogic.ts. -/
def isUsernameTaken (state : MatchmakerState) (username : String) : Prop :=
  lowercase username ∈ state.activeUsernames

/-- `joinQueue` from matchmakerLogic.ts; `Date.now()` is the parameter `now`. -/
def joinQueue (now : ℕ) (state : MatchmakerState) (connectionId username : String) :
    JoinQueueResult :=
  let normalizedUsername := lowercase username
  if normalizedUsername ∈ state.activeUsernames then
    { success := false, state := state, position := none, error := some JoinError.USERNAME_TAKEN }
  else
    let player : QueuedPlayer := { connectionId := connectionId, username := username, joinedAt := now }
    let newQueue := state.queue ++ [player]
    { success := true
      state := { queue := newQueue, activeUsernames := insert normalizedUsername state.activeUsernames }
      position := some newQueue.length
      error := none }

/-- `leaveQueue` from matchmakerLogic.ts. -/
def leaveQueue (state : MatchmakerState) (connectionId : String) : MatchmakerState :=
  match state.queue.find? (fun p => p.connectionId == connectionId) with
  | none => state
  | some player =>
    { queue := state.queue.filter (fun p => p.connectionId != connectionId)
      activeUsernames := state.activeUsernames.erase (lowercase player.username) }

/-- `findMatch` from matchmakerLogic.ts: the source first tests
`queue.length < 2`, then destructures `[player1, player2, ...remainingQueue]`;
`generateGameRoomId()` (time plus random suffix) is the parameter `roomId`. -/
def findMatch (roomId : String) (state : MatchmakerState) : FindMatchResult :=
  match state.queue with
  | player1 :: player2 :: remainingQueue =>
    { state := { queue := remainingQueue, activeUsernames := state.activeUsernames }
      matched := some { player1 := player1, player2 := player2, gameRoomId := roomId } }
  | _ => { state := state, matched := none }

/-- `getQueuePosition` from matchmakerLogic.ts. -/
def getQueuePosition (state : MatchmakerState) (connectionId : String) : ℤ :=
  match state.queue.findIdx? (fun p => p.connectionId == connectionId) with
  | none => -1
  | some index => (index : ℤ) + 1

/-- Ball speed magnitude of a physics state, `Math.sqrt(ballVelX ** 2 + ballVelY ** 2)`
as computed by `checkPaddleCollision`. -/
def ballSpeed (s : PhysicsState) : ℝ :=
  Real.sqrt (s.ballVelX ^ 2 + s.ballVelY ^ 2)

-- Concrete states used by witnesses and counterexamples.

/-- A host player, as the transport layer would register the first connection. -/
def alice : PlayerInfo :=
  { id := "conn-1", username := "Alice", role := PlayerRole.host }

/-- A guest player, the second connection. -/
def bob : PlayerInfo :=
  { id := "conn-2", username := "Bob", role := PlayerRole.guest }

/-- A room mid-match with a single player left in it. -/
def exPlayingSolo : GameServerState :=
  { roomId := "room-s", players := [alice],
    gameState := { createInitialGameState with status := GameStatus.playing },
    tickCount := 0 }

/-- A room mid-match with both players present. -/
def exPlayingPair : GameServerState :=
  { roomId := "room-p", players := [alice, bob],
    gameState := { createInitialGameState with status := GameStatus.playing },
    tickCount := 0 }

/-- A match where player1 already holds 7 points while player2 is at 6. -/
def exScore76 : GameServerState :=
  { roomId := "room-76", players := [alice, bob],
    gameState := { createInitialGameState with status := GameStatus.playing, score1 := 7, score2 := 6 },
    tickCount := 0 }

/-- A match at 6 : 6, one point from the win on either side. -/
def exScore66 : GameServerState :=
  { roomId := "room-66", players := [alice, bob],
    gameState := { createInitialGameState with status := GameStatus.playing, score1 := 6, score2 := 6 },
    tickCount := 0 }

/-- A match where player2 already holds 7 points, the ball away from center. -/
def exScore07 : GameServerState :=
  { roomId := "room-07", players := [alice, bob],
    gameState := { createInitialGameState with status := GameStatus.playing, score2 := 7, ballX := 30 },
    tickCount := 0 }

/-- A fresh rally at 0 : 0, mid-game. -/
def exRally : GameServerState :=
  { roomId := "room-r", players := [alice, bob],
    gameState := { createInitialGameState with status := GameStatus.playing },
    tickCount := 0 }

/-- A room with only the host joined. -/
def exHostOnly : GameServerState :=
  { roomId := "room-h", players := [alice], gameState := createInitialGameState, tickCount := 0 }

/-- A physics state whose ball already moves faster than `BALL_MAX_SPEED`. -/
def exFastBall : PhysicsState :=
  { ballX := 50, ballY := 50, ballVelX := 100, ballVelY := 0, paddle1Y := 50, paddle2Y := 50 }

/-- A physics state one tick away from hitting the left paddle dead-center. -/
def exLeftHit : PhysicsState :=
  { ballX := 6, ballY := 50, ballVelX := -0.8, ballVelY := 0, paddle1Y := 50, paddle2Y := 50 }

/-- A matchmaker state whose active-name set already holds "player1". -/
def exTakenName : MatchmakerState :=
  { queue := [], activeUsernames := {"player1"} }

/-- Queued players A, B, C, D in enqueue order. -/
def qA : QueuedPlayer := { connectionId := "m-1", username := "Ann", joinedAt := 1 }

def qB : QueuedPlayer := { connectionId := "m-2", username := "Ben", joinedAt := 2 }

def qC : QueuedPlayer := { connectionId := "m-3", username := "Cyd", joinedAt := 3 }

def qD : QueuedPlayer := { connectionId := "m-4", username := "Dee", joinedAt := 4 }

/-- A matchmaker state with four players queued in order A, B, C, D. -/
def exQueue4 : MatchmakerState :=
  { queue := [qA, qB, qC, qD], activeUsernames := {"ann", "ben", "cyd", "dee"} }

end

-- Helper lemmas about the physics functions.

theorem updateBallPosition_ballVelX (s : PhysicsState) :
    (updateBallPosition s).ballVelX = s.ballVelX := rfl

theorem updateBallPosition_ballVelY (s : PhysicsState) :
    (updateBallPosition s).ballVelY = s.ballVelY := rfl

theorem updateBallPosition_paddle1Y (s : PhysicsState) :
    (updateBallPosition s).paddle1Y = s.paddle1Y := rfl

theorem updateBallPosition_paddle2Y (s : PhysicsState) :
    (updateBallPosition s).paddle2Y = s.paddle2Y := rfl

theorem checkWallCollision_ballX (s : PhysicsState) :
    (checkWallCollision s).ballX = s.ballX := rfl

theorem checkWallCollision_ballVelX (s : PhysicsState) :
    (checkWallCollision s).ballVelX = s.ballVelX := rfl

theorem checkWallCollision_paddle1Y (s : PhysicsState) :
    (checkWallCollision s).paddle1Y = s.paddle1Y := rfl

theorem checkWallCollision_paddle2Y (s : PhysicsState) :
    (checkWallCollision s).paddle2Y = s.paddle2Y := rfl

theorem checkPaddleCollision_paddle1Y (s : PhysicsState) :
    (checkPaddleCollision s).paddle1Y = s.paddle1Y := by
  unfold checkPaddleCollision
  split
  · rfl
  · split <;> rfl

theorem checkPaddleCollision_paddle2Y (s : PhysicsState) :
    (checkPaddleCollision s).paddle2Y = s.paddle2Y := by
  unfold checkPaddleCollision
  split
  · rfl
  · split <;> rfl

theorem physicsTick_fst (s : PhysicsState) :
    (physicsTick s).1 = checkPaddleCollision (checkWallCollision (updateBallPosition s)) := rfl

/-- C10: the physics tick reads the paddles but never moves them: `paddle1Y`
and `paddle2Y` of the output state equal those of the input state. -/
theorem physicsTick_preserves_paddles (s : PhysicsState) :
    (physicsTick s).1.paddle1Y = s.paddle1Y ∧ (physicsTick s).1.paddle2Y = s.paddle2Y := by
  rw [physicsTick_fst]
  constructor
  · rw [checkPaddleCollision_paddle1Y, checkWallCollision_paddle1Y, updateBallPosition_paddle1Y]
  · rw [checkPaddleCollision_paddle2Y, checkWallCollision_paddle2Y, updateBallPosition_paddle2Y]

/-- C7 (amended): when the status is `waiting`, `paused` or `finished`,
`tick` returns the state entirely unchanged — the tick counter included
(the source returns the input state itself without incrementing it). -/
theorem tick_idle (serveTo : Player) (r : ℝ) (s : GameServerState)
    (h : s.gameState.status = GameStatus.waiting ∨ s.gameState.status = GameStatus.paused ∨
      s.gameState.status = GameStatus.finished) :
    tick serveTo r s = s := by
  rcases h with h | h | h <;> simp [tick, h]

/-- C7, counterexample to the claim as stated: on a `waiting` room the tick
counter does not increment — `tick` returns it unchanged at 0, not 1. -/
theorem tick_idle_cex :
    (tick Player.player1 0 (createGameServerState "room-w")).tickCount ≠
      (createGameServerState "room-w").tickCount + 1 := by
  decide

/-- C7, witness: the amended theorem applied to a concrete waiting room. -/
theorem tick_idle_witness :
    tick Player.player1 0 (createGameServerState "room-w") = createGameServerState "room-w" :=
  tick_idle Player.player1 0 (createGameServerState "room-w") (Or.inl rfl)

/-- C4: `joinQueue` fails with `USERNAME_TAKEN` and leaves the state
unchanged when the lower-cased name is already active (so it is
case-insensitive); otherwise it succeeds, appends the player at the queue
tail, records the lower-cased name, and reports the new queue length as the
1-based position. -/
theorem joinQueue_spec (now : ℕ) (state : MatchmakerState) (c name : String) :
    (lowercase name ∈ state.activeUsernames →
      joinQueue now state c name =
        { success := false, state := state, position := none,
          error := some JoinError.USERNAME_TAKEN }) ∧
    (lowercase name ∉ state.activeUsernames →
      (joinQueue now state c name).success = true ∧
      (joinQueue now state c name).state.queue =
        state.queue ++ [{ connectionId := c, username := name, joinedAt := now }] ∧
      (joinQueue now state c name).state.activeUsernames =
        insert (lowercase name) state.activeUsernames ∧
      (joinQueue now state c name).position = some (state.queue.length + 1) ∧
      (joinQueue now state c name).error = none) := by
  constructor
  · intro h
    simp only [joinQueue]
    rw [if_pos h]
  · intro h
    simp only [joinQueue]
    rw [if_neg h]
    refine ⟨rfl, rfl, rfl, ?_, rfl⟩
    simp

/-- C4, witness: "Player1" collides with the active name "player1" and is
refused with the state unchanged, while "Bob" joins at position 1. -/
theorem joinQueue_spec_witness :
    (joinQueue 5 exTakenName "c-9" "Player1").success = false ∧
    (joinQueue 5 exTakenName "c-9" "Player1").error = some JoinError.USERNAME_TAKEN ∧
    (joinQueue 5 exTakenName "c-9" "Player1").state = exTakenName ∧
    (joinQueue 5 exTakenName "c-8" "Bob").position = some 1 := by
  have h1 := (joinQueue_spec 5 exTakenName "c-9" "Player1").1 (by decide)
  have h2 := (joinQueue_spec 5 exTakenName "c-8" "Bob").2 (by decide)
  refine ⟨by rw [h1], by rw [h1], by rw [h1], ?_⟩
  rw [h2.2.2.2.1]
  rfl

/-- C5: with fewer than two queued players `findMatch` changes nothing and
reports no match; otherwise it pairs exactly the first two players in queue
order, leaves the rest of the queue in order and the active-name set
untouched; from a four-player queue two successive calls pair (1st, 2nd)
then (3rd, 4th). -/
theorem findMatch_spec (roomId : String) (state : MatchmakerState) :
    (state.queue.length < 2 → findMatch roomId state = { state := state, matched := none }) ∧
    (∀ p1 p2 rest, state.queue = p1 :: p2 :: rest →
      findMatch roomId state =
        { state := { queue := rest, activeUsernames := state.activeUsernames }
          matched := some { player1 := p1, player2 := p2, gameRoomId := roomId } }) ∧
    (∀ a b u v rest roomId2, state.queue = a :: b :: u :: v :: rest →
      (findMatch roomId state).matched =
        some { player1 := a, player2 := b, gameRoomId := roomId } ∧
      (findMatch roomId state).state.queue = u :: v :: rest ∧
      (findMatch roomId state).state.activeUsernames = state.activeUsernames ∧
      (findMatch roomId2 (findMatch roomId state).state).matched =
        some { player1 := u, player2 := v, gameRoomId := roomId2 } ∧
      (findMatch roomId2 (findMatch roomId state).state).state.queue = rest) := by
  obtain ⟨queue, names⟩ := state
  refine ⟨?_, ?_, ?_⟩
  · intro h
    match queue, h with
    | [], _ => rfl
    | [_], _ => rfl
    | _ :: _ :: _, h => exact absurd h (by simp)
  · intro p1 p2 rest hq
    cases hq
    rfl
  · intro a b u v rest roomId2 hq
    cases hq
    exact ⟨rfl, rfl, rfl, rfl, rfl⟩

/-- C5, witness: from queue [A, B, C, D] the first call pairs A and B and
leaves [C, D]; the second call pairs C and D. -/
theorem findMatch_spec_witness :
    (findMatch "g-1" exQueue4).matched =
      some { player1 := qA, player2 := qB, gameRoomId := "g-1" } ∧
    (findMatch "g-1" exQueue4).state.queue = [qC, qD] ∧
    (findMatch "g-2" (findMatch "g-1" exQueue4).state).matched =
      some { player1 := qC, player2 := qD, gameRoomId := "g-2" } := by
  have h := (findMatch_spec "g-1" exQueue4).2.2 qA qB qC qD [] "g-2" rfl
  exact ⟨h.1, h.2.1, h.2.2.2.1⟩

/-- C8: `clampPaddlePosition` always lands in
[paddleHeight/2, arenaHeight − paddleHeight/2] = [10, 90] and is the identity
on that range; `updatePaddlePosition` is a no-op for an unknown connection and
otherwise writes the clamped `y` to `paddle1Y` for the host role, `paddle2Y`
otherwise. -/
theorem updatePaddlePosition_spec (s : GameServerState) (c : String) (y : ℝ) :
    PADDLE_HEIGHT / 2 = 10 ∧ ARENA_HEIGHT - PADDLE_HEIGHT / 2 = 90 ∧
    10 ≤ clampPaddlePosition y ∧ clampPaddlePosition y ≤ 90 ∧
    (10 ≤ y → y ≤ 90 → clampPaddlePosition y = y) ∧
    (getPlayer s c = none → updatePaddlePosition s c y = s) ∧
    (∀ p, getPlayer s c = some p →
      (p.role = PlayerRole.host →
        (updatePaddlePosition s c y).gameState.paddle1Y = clampPaddlePosition y) ∧
      (¬ p.role = PlayerRole.host →
        (updatePaddlePosition s c y).gameState.paddle2Y = clampPaddlePosition y)) := by
  have hPH : PADDLE_HEIGHT / 2 = (10 : ℝ) := by norm_num [PADDLE_HEIGHT]
  have hAH : ARENA_HEIGHT - PADDLE_HEIGHT / 2 = (90 : ℝ) := by
    norm_num [ARENA_HEIGHT, PADDLE_HEIGHT]
  have hclamp : clampPaddlePosition y = max 10 (min 90 y) := by
    rw [clampPaddlePosition, hAH, hPH]
  refine ⟨hPH, hAH, ?_, ?_, ?_, ?_, ?_⟩
  · rw [hclamp]
    exact le_max_left _ _
  · rw [hclamp]
    exact max_le (by norm_num) (min_le_left _ _)
  · intro h1 h2
    rw [hclamp, min_eq_right h2, max_eq_right h1]
  · intro h
    simp only [updatePaddlePosition, h]
  · intro p hp
    constructor
    · intro hrole
      simp only [updatePaddlePosition, hp]
      rw [if_pos hrole]
    · intro hrole
      simp only [updatePaddlePosition, hp]
      rw [if_neg hrole]

/-- C8, witness: the host moves `paddle1Y` to the clamped in-range value 30,
and an unknown connection changes nothing. -/
theorem updatePaddlePosition_spec_witness :
    (updatePaddlePosition exHostOnly "conn-1" 30).gameState.paddle1Y = clampPaddlePosition 30 ∧
    clampPaddlePosition 30 = 30 ∧
    updatePaddlePosition exHostOnly "nobody" 30 = exHostOnly := by
  have h := updatePaddlePosition_spec exHostOnly "conn-1" (30 : ℝ)
  have h2 := updatePaddlePosition_spec exHostOnly "nobody" (30 : ℝ)
  exact ⟨(h.2.2.2.2.2.2 alice (by decide)).1 rfl,
    h.2.2.2.2.1 (by norm_num) (by norm_num),
    h2.2.2.2.2.2.1 (by decide)⟩

theorem calculateBallAngle_def (ballY paddleY : ℝ) :
    calculateBallAngle ballY paddleY =
      max (-1) (min 1 ((ballY - paddleY) / (PADDLE_HEIGHT / 2))) * MAX_BOUNCE_ANGLE := rfl

theorem clamp_unit_neg (t : ℝ) : max (-1) (min 1 (-t)) = -(max (-1) (min 1 t)) := by
  rcases le_total t (-1) with h | h
  · rw [min_eq_right (by linarith : t ≤ (1 : ℝ)), max_eq_left h,
      min_eq_left (by linarith : (1 : ℝ) ≤ -t), max_eq_right (by norm_num : (-1 : ℝ) ≤ 1)]
    norm_num
  · rcases le_total t 1 with h2 | h2
    · rw [min_eq_right h2, max_eq_right h,
        min_eq_right (by linarith : -t ≤ (1 : ℝ)), max_eq_right (by linarith : (-1 : ℝ) ≤ -t)]
    · rw [min_eq_left h2, max_eq_right (by norm_num : (-1 : ℝ) ≤ 1),
        min_eq_right (by linarith : -t ≤ (1 : ℝ)), max_eq_left (by linarith : -t ≤ (-1 : ℝ))]

theorem max_bounce_angle_nonneg : 0 ≤ MAX_BOUNCE_ANGLE := by
  rw [MAX_BOUNCE_ANGLE]
  positivity

/-- C9: `calculateBallAngle` is odd-symmetric about the paddle center, its
magnitude never exceeds 60° (π/3 radians), and it is monotone non-decreasing
in the hit offset. -/
theorem calculateBallAngle_spec (paddleY d ballY b1 b2 : ℝ) :
    calculateBallAngle (paddleY - d) paddleY = -calculateBallAngle (paddleY + d) paddleY ∧
    |calculateBallAngle ballY paddleY| ≤ Real.pi / 3 ∧
    (b1 ≤ b2 → calculateBallAngle b1 paddleY ≤ calculateBallAngle b2 paddleY) := by
  refine ⟨?_, ?_, ?_⟩
  · rw [calculateBallAngle_def, calculateBallAngle_def]
    have e1 : (paddleY - d - paddleY) / (PADDLE_HEIGHT / 2) =
        -((paddleY + d - paddleY) / (PADDLE_HEIGHT / 2)) := by ring
    rw [e1, clamp_unit_neg, neg_mul]
  · rw [calculateBallAngle_def]
    have h1 : (-1 : ℝ) ≤ max (-1) (min 1 ((ballY - paddleY) / (PADDLE_HEIGHT / 2))) :=
      le_max_left _ _
    have h2 : max (-1) (min 1 ((ballY - paddleY) / (PADDLE_HEIGHT / 2))) ≤ 1 :=
      max_le (by norm_num) (min_le_left _ _)
    calc |max (-1) (min 1 ((ballY - paddleY) / (PADDLE_HEIGHT / 2))) * MAX_BOUNCE_ANGLE|
        = |max (-1) (min 1 ((ballY - paddleY) / (PADDLE_HEIGHT / 2)))| * MAX_BOUNCE_ANGLE := by
          rw [abs_mul, abs_of_nonneg max_bounce_angle_nonneg]
      _ ≤ 1 * MAX_BOUNCE_ANGLE := by
          exact mul_le_mul_of_nonneg_right (abs_le.mpr ⟨h1, h2⟩) max_bounce_angle_nonneg
      _ = Real.pi / 3 := by rw [one_mul, MAX_BOUNCE_ANGLE]
  · intro hb
    rw [calculateBallAngle_def, calculateBallAngle_def]
    have hc : (0 : ℝ) < PADDLE_HEIGHT / 2 := by norm_num [PADDLE_HEIGHT]
    apply mul_le_mul_of_nonneg_right _ max_bounce_angle_nonneg
    apply max_le_max le_rfl
    apply min_le_min le_rfl
    exact (div_le_div_iff_of_pos_right hc).mpr (by linarith)

/-- C9, witness: monotone on a concrete pair of hit positions. -/
theorem calculateBallAngle_spec_witness :
    calculateBallAngle 40 50 ≤ calculateBallAngle 60 50 :=
  (calculateBallAngle_spec 50 1 55 40 60).2.2 (by norm_num)

/-- C1 (amended): `removePlayer` is a no-op when the connection matches no
player; during `countdown` or `playing` it removes the player, forces the
status to `finished`, and sets `winner` to the side of the remaining player
(host ⇒ player1, else player2) — in particular, when no player remains the
winner is set to `player2`, not left unset, since the absent remaining
player does not have the host role. -/
theorem removePlayer_spec (s : GameServerState) (c : String) :
    (s.players.find? (fun p => p.id == c) = none → removePlayer s c = s) ∧
    (s.players.find? (fun p => p.id == c) ≠ none →
      (s.gameState.status = GameStatus.countdown ∨ s.gameState.status = GameStatus.playing) →
      (removePlayer s c).players = s.players.filter (fun p => p.id != c) ∧
      (removePlayer s c).gameState.status = GameStatus.finished ∧
      (∀ q l, (removePlayer s c).players = q :: l →
        (removePlayer s c).gameState.winner =
          some (if q.role = PlayerRole.host then Player.player1 else Player.player2)) ∧
      ((removePlayer s c).players = [] →
        (removePlayer s c).gameState.winner = some Player.player2)) := by
  constructor
  · intro h
    simp only [removePlayer, h]
  · intro hfind hstatus
    have hor : s.gameState.status = GameStatus.playing ∨
        s.gameState.status = GameStatus.countdown := Or.symm hstatus
    cases hp : s.players.find? (fun p => p.id == c) with
    | none => exact absurd hp hfind
    | some p =>
      simp only [removePlayer, hp]
      rw [if_pos hor]
      refine ⟨trivial, rfl, ?_, ?_⟩
      · intro q l hql
        by_cases hq : q.role = PlayerRole.host <;> simp [hql, hq]
      · intro hempty
        simp [hempty]

/-- C1, counterexample to the claim as stated: removing the only player of a
`playing` room empties it, yet `winner` is set to `player2` rather than left
unset. -/
theorem removePlayer_cex :
    exPlayingSolo.gameState.winner = none ∧
    (removePlayer exPlayingSolo "conn-1").players = [] ∧
    (removePlayer exPlayingSolo "conn-1").gameState.winner = some Player.player2 := by
  exact ⟨rfl, by decide, by decide⟩

/-- C1, witness: the host disconnecting mid-match hands the win to the
remaining guest, `player2`. -/
theorem removePlayer_spec_witness :
    (removePlayer exPlayingPair "conn-1").gameState.status = GameStatus.finished ∧
    (removePlayer exPlayingPair "conn-1").gameState.winner = some Player.player2 := by
  have h := (removePlayer_spec exPlayingPair "conn-1").2 (by decide) (Or.inr rfl)
  refine ⟨h.2.1, ?_⟩
  have hw := h.2.2.1 bob [] (by decide)
  rw [hw]
  rfl

/-- C2 (amended): at `score1 = 6` a player1 point yields `score1 = 7`,
finishes the match with winner `player1` and leaves ball position and
velocity untouched; symmetrically for player2 at `score2 = 6`, provided
`score1` is still below 7 — the code tests player1's threshold first, so a
state already carrying `score1 ≥ 7` would be awarded to player1. -/
theorem handleScoring_win (r : ℝ) (s : GameServerState) :
    (s.gameState.score1 = 6 →
      (handleScoring r s Player.player1).gameState.score1 = 7 ∧
      (handleScoring r s Player.player1).gameState.status = GameStatus.finished ∧
      (handleScoring r s Player.player1).gameState.winner = some Player.player1 ∧
      (handleScoring r s Player.player1).gameState.ballX = s.gameState.ballX ∧
      (handleScoring r s Player.player1).gameState.ballY = s.gameState.ballY ∧
      (handleScoring r s Player.player1).gameState.ballVelX = s.gameState.ballVelX ∧
      (handleScoring r s Player.player1).gameState.ballVelY = s.gameState.ballVelY) ∧
    (s.gameState.score2 = 6 → s.gameState.score1 < 7 →
      (handleScoring r s Player.player2).gameState.score2 = 7 ∧
      (handleScoring r s Player.player2).gameState.status = GameStatus.finished ∧
      (handleScoring r s Player.player2).gameState.winner = some Player.player2 ∧
      (handleScoring r s Player.player2).gameState.ballX = s.gameState.ballX ∧
      (handleScoring r s Player.player2).gameState.ballY = s.gameState.ballY ∧
      (handleScoring r s Player.player2).gameState.ballVelX = s.gameState.ballVelX ∧
      (handleScoring r s Player.player2).gameState.ballVelY = s.gameState.ballVelY) := by
  constructor
  · intro h6
    simp [handleScoring, h6, WINNING_SCORE]
  · intro h6 hlt
    have hn : ¬ (WINNING_SCORE ≤ s.gameState.score1) := by
      rw [WINNING_SCORE]
      exact not_le.mpr hlt
    simp [handleScoring, h6, hn, WINNING_SCORE]
    exact hlt

/-- C2, counterexample to the claim as stated: from `score1 = 7, score2 = 6`
a player2 point brings `score2` to 7 yet the winner recorded is `player1`,
because the code checks player1's threshold first. -/
theorem handleScoring_win_cex :
    exScore76.gameState.score2 = 6 ∧
    (handleScoring 0 exScore76 Player.player2).gameState.score2 = 7 ∧
    (handleScoring 0 exScore76 Player.player2).gameState.winner = some Player.player1 :=
  ⟨rfl, by decide, by decide⟩

/-- C2, witness: from 6 : 6 either side's point wins for that side. -/
theorem handleScoring_win_witness :
    (handleScoring 0 exScore66 Player.player1).gameState.winner = some Player.player1 ∧
    (handleScoring 0 exScore66 Player.player2).gameState.winner = some Player.player2 :=
  ⟨((handleScoring_win 0 exScore66).1 rfl).2.2.1,
   ((handleScoring_win 0 exScore66).2 rfl (by decide)).2.2.1⟩

/-- C3 (amended): when both resulting scores stay below 7 and the match was
not already `finished`, `handleScoring` increments only the scorer's score
and re-serves the ball from the center (50, 50) with nonzero horizontal
velocity directed toward the scoring side (negative for player1, positive
for player2); the draw `r` of `Math.random()` lies in [0, 1). -/
theorem handleScoring_continue (r : ℝ) (s : GameServerState) (scorer : Player)
    (hr0 : 0 ≤ r) (hr1 : r < 1)
    (hstat : ¬ s.gameState.status = GameStatus.finished)
    (h1 : (if scorer = Player.player1 then s.gameState.score1 + 1 else s.gameState.score1) <
      WINNING_SCORE)
    (h2 : (if scorer = Player.player1 then s.gameState.score2 else s.gameState.score2 + 1) <
      WINNING_SCORE) :
    ((scorer = Player.player1 →
        (handleScoring r s scorer).gameState.score1 = s.gameState.score1 + 1 ∧
        (handleScoring r s scorer).gameState.score2 = s.gameState.score2) ∧
      (scorer = Player.player2 →
        (handleScoring r s scorer).gameState.score2 = s.gameState.score2 + 1 ∧
        (handleScoring r s scorer).gameState.score1 = s.gameState.score1)) ∧
    (handleScoring r s scorer).gameState.ballX = 50 ∧
    (handleScoring r s scorer).gameState.ballY = 50 ∧
    ¬ (handleScoring r s scorer).gameState.ballVelX = 0 ∧
    (scorer = Player.player1 → (handleScoring r s scorer).gameState.ballVelX < 0) ∧
    (scorer = Player.player2 → 0 < (handleScoring r s scorer).gameState.ballVelX) := by
  have hcos : 0 < Real.cos ((r - 0.5) * (Real.pi / 2)) := by
    apply Real.cos_pos_of_mem_Ioo
    have hpi : 0 < Real.pi / 2 := by positivity
    constructor
    · have := mul_lt_mul_of_pos_right (by linarith : (-1 : ℝ) < r - 0.5) hpi
      simpa using this
    · have := mul_lt_mul_of_pos_right (by linarith : r - 0.5 < (1 : ℝ)) hpi
      simpa using this
  have hpos : 0 < BALL_INITIAL_SPEED * Real.cos ((r - 0.5) * (Real.pi / 2)) :=
    mul_pos (by norm_num [BALL_INITIAL_SPEED]) hcos
  cases scorer with
  | player1 =>
    rw [if_pos rfl] at h1 h2
    have hn1 : ¬ (WINNING_SCORE ≤ s.gameState.score1 + 1) := not_le.mpr h1
    have hn2 : ¬ (WINNING_SCORE ≤ s.gameState.score2) := not_le.mpr h2
    have hvel : (handleScoring r s Player.player1).gameState.ballVelX =
        -1 * BALL_INITIAL_SPEED * Real.cos ((r - 0.5) * (Real.pi / 2)) := by
      simp [handleScoring, startBall, resetBall, hn1, hn2, hstat]
    have hsign : (handleScoring r s Player.player1).gameState.ballVelX < 0 := by
      rw [hvel]
      nlinarith [hpos]
    refine ⟨⟨fun _ => ?_, fun hco => Player.noConfusion hco⟩, ?_, ?_, ne_of_lt hsign, fun _ => hsign,
      fun hco => Player.noConfusion hco⟩
    · constructor <;> simp [handleScoring, hn1, hn2, hstat]
    · simp [handleScoring, startBall, resetBall, hn1, hn2, hstat]
    · simp [handleScoring, startBall, resetBall, hn1, hn2, hstat]
  | player2 =>
    rw [if_neg (by decide)] at h1 h2
    have hn1 : ¬ (WINNING_SCORE ≤ s.gameState.score1) := not_le.mpr h1
    have hn2 : ¬ (WINNING_SCORE ≤ s.gameState.score2 + 1) := not_le.mpr h2
    have hvel : (handleScoring r s Player.player2).gameState.ballVelX =
        1 * BALL_INITIAL_SPEED * Real.cos ((r - 0.5) * (Real.pi / 2)) := by
      simp [handleScoring, startBall, resetBall, hn1, hn2, hstat]
    have hsign : 0 < (handleScoring r s Player.player2).gameState.ballVelX := by
      rw [hvel]
      nlinarith [hpos]
    refine ⟨⟨fun hco => Player.noConfusion hco, fun _ => ?_⟩, ?_, ?_, (ne_of_lt hsign).symm,
      fun hco => Player.noConfusion hco, fun _ => hsign⟩
    · constructor <;> simp [handleScoring, hn1, hn2, hstat]
    · simp [handleScoring, startBall, resetBall, hn1, hn2, hstat]
    · simp [handleScoring, startBall, resetBall, hn1, hn2, hstat]

/-- C3, counterexample to the claim as stated: with `score2` already at 7, a
player1 point keeps the incremented `score1` below 7, yet the ball is not
re-served from the center — it stays at `ballX = 30`, because the code ends
the match for player2 instead. -/
theorem handleScoring_continue_cex :
    exScore07.gameState.score1 + 1 < 7 ∧
    (handleScoring 0 exScore07 Player.player1).gameState.ballX ≠ 50 := by
  refine ⟨by decide, ?_⟩
  have hx : (handleScoring 0 exScore07 Player.player1).gameState.ballX = 30 := rfl
  rw [hx]
  norm_num

/-- C3, witness: a rally point at 0 : 0 re-serves from the center toward the
scoring player1 (negative horizontal velocity). -/
theorem handleScoring_continue_witness :
    (handleScoring 0 exRally Player.player1).gameState.ballX = 50 ∧
    (handleScoring 0 exRally Player.player1).gameState.ballVelX < 0 := by
  have h := handleScoring_continue 0 exRally Player.player1 le_rfl (by norm_num) (by decide)
    (by decide) (by decide)
  exact ⟨h.2.1, h.2.2.2.2.1 rfl⟩

-- Helper lemmas about the ball speed.

theorem ballSpeed_nonneg (s : PhysicsState) : 0 ≤ ballSpeed s :=
  Real.sqrt_nonneg _

theorem ballSpeed_update (s : PhysicsState) :
    ballSpeed (updateBallPosition s) = ballSpeed s := rfl

theorem ballSpeed_wall (s : PhysicsState) :
    ballSpeed (checkWallCollision s) = ballSpeed s := by
  unfold ballSpeed checkWallCollision
  dsimp only
  split_ifs <;> simp [neg_sq, sq_abs]

theorem checkPaddleCollision_of_no_hit (s : PhysicsState)
    (hl : ¬ leftPaddleHit s) (hr : ¬ rightPaddleHit s) :
    checkPaddleCollision s = s := by
  simp only [checkPaddleCollision]
  rw [if_neg hl, if_neg hr]

theorem min_speed_nonneg (s : PhysicsState) :
    0 ≤ min (ballSpeed s + BALL_SPEED_INCREMENT) BALL_MAX_SPEED := by
  have h0 := ballSpeed_nonneg s
  apply le_min
  · have : (0 : ℝ) ≤ BALL_SPEED_INCREMENT := by norm_num [BALL_SPEED_INCREMENT]
    linarith
  · norm_num [BALL_MAX_SPEED]

theorem ballSpeed_paddle_hit (s : PhysicsState)
    (h : leftPaddleHit s ∨ rightPaddleHit s) :
    ballSpeed (checkPaddleCollision s) =
      min (ballSpeed s + BALL_SPEED_INCREMENT) BALL_MAX_SPEED := by
  have hn := min_speed_nonneg s
  unfold ballSpeed at hn
  rcases h with hl | hr
  · simp only [checkPaddleCollision]
    rw [if_pos hl]
    unfold ballSpeed
    dsimp only
    have key : |min (Real.sqrt (s.ballVelX ^ 2 + s.ballVelY ^ 2) + BALL_SPEED_INCREMENT)
          BALL_MAX_SPEED * Real.cos (calculateBallAngle s.ballY s.paddle1Y)| ^ 2 +
        (min (Real.sqrt (s.ballVelX ^ 2 + s.ballVelY ^ 2) + BALL_SPEED_INCREMENT)
          BALL_MAX_SPEED * Real.sin (calculateBallAngle s.ballY s.paddle1Y)) ^ 2 =
        (min (Real.sqrt (s.ballVelX ^ 2 + s.ballVelY ^ 2) + BALL_SPEED_INCREMENT)
          BALL_MAX_SPEED) ^ 2 := by
      rw [sq_abs, mul_pow, mul_pow, ← mul_add, Real.cos_sq_add_sin_sq, mul_one]
    rw [key, Real.sqrt_sq hn]
  · have hnl : ¬ leftPaddleHit s := by
      intro hcontra
      exact absurd hr.1 (not_lt.mpr (le_of_lt hcontra.1))
    simp only [checkPaddleCollision]
    rw [if_neg hnl, if_pos hr]
    unfold ballSpeed
    dsimp only
    have key : (-|min (Real.sqrt (s.ballVelX ^ 2 + s.ballVelY ^ 2) + BALL_SPEED_INCREMENT)
          BALL_MAX_SPEED * Real.cos (calculateBallAngle s.ballY s.paddle2Y)|) ^ 2 +
        (min (Real.sqrt (s.ballVelX ^ 2 + s.ballVelY ^ 2) + BALL_SPEED_INCREMENT)
          BALL_MAX_SPEED * Real.sin (calculateBallAngle s.ballY s.paddle2Y)) ^ 2 =
        (min (Real.sqrt (s.ballVelX ^ 2 + s.ballVelY ^ 2) + BALL_SPEED_INCREMENT)
          BALL_MAX_SPEED) ^ 2 := by
      rw [neg_sq, sq_abs, mul_pow, mul_pow, ← mul_add, Real.cos_sq_add_sin_sq, mul_one]
    rw [key, Real.sqrt_sq hn]

/-- C6 (amended): provided the incoming ball speed is at most `BALL_MAX_SPEED`,
the post-tick speed lies in [0, BALL_MAX_SPEED]; and on a tick in which a
paddle collision fires, the post-tick speed equals
`min(pre-tick speed + BALL_SPEED_INCREMENT, BALL_MAX_SPEED)`, hence is
strictly greater than the pre-tick speed whenever that was below the max. -/
theorem physicsTick_speed (s : PhysicsState) :
    (ballSpeed s ≤ BALL_MAX_SPEED →
      0 ≤ ballSpeed (physicsTick s).1 ∧ ballSpeed (physicsTick s).1 ≤ BALL_MAX_SPEED) ∧
    (leftPaddleHit (checkWallCollision (updateBallPosition s)) ∨
      rightPaddleHit (checkWallCollision (updateBallPosition s)) →
      ballSpeed (physicsTick s).1 = min (ballSpeed s + BALL_SPEED_INCREMENT) BALL_MAX_SPEED ∧
      (ballSpeed s < BALL_MAX_SPEED → ballSpeed s < ballSpeed (physicsTick s).1)) := by
  have hfst : (physicsTick s).1 =
      checkPaddleCollision (checkWallCollision (updateBallPosition s)) := rfl
  have hs2speed : ballSpeed (checkWallCollision (updateBallPosition s)) = ballSpeed s := by
    rw [ballSpeed_wall, ballSpeed_update]
  constructor
  · intro hb
    by_cases hhit : leftPaddleHit (checkWallCollision (updateBallPosition s)) ∨
      rightPaddleHit (checkWallCollision (updateBallPosition s))
    · rw [hfst, ballSpeed_paddle_hit _ hhit, hs2speed]
      exact ⟨min_speed_nonneg s, min_le_right _ _⟩
    · push_neg at hhit
      rw [hfst, checkPaddleCollision_of_no_hit _ hhit.1 hhit.2, hs2speed]
      exact ⟨ballSpeed_nonneg s, hb⟩
  · intro hhit
    have heq : ballSpeed (physicsTick s).1 =
        min (ballSpeed s + BALL_SPEED_INCREMENT) BALL_MAX_SPEED := by
      rw [hfst, ballSpeed_paddle_hit _ hhit, hs2speed]
    refine ⟨heq, fun hlt => ?_⟩
    rw [heq]
    apply lt_min
    · have : (0 : ℝ) < BALL_SPEED_INCREMENT := by norm_num [BALL_SPEED_INCREMENT]
      linarith
    · exact hlt

/-- C6, counterexample to the claim as stated: a state whose ball already
moves at speed 100 keeps that speed through a collision-free tick, so the
post-tick speed is not bounded by `BALL_MAX_SPEED` for arbitrary states. -/
theorem physicsTick_speed_cex :
    BALL_MAX_SPEED < ballSpeed (physicsTick exFastBall).1 := by
  have hvx : (checkWallCollision (updateBallPosition exFastBall)).ballVelX = 100 := rfl
  have hx : (checkWallCollision (updateBallPosition exFastBall)).ballX = 50 + 100 := rfl
  have hnl : ¬ leftPaddleHit (checkWallCollision (updateBallPosition exFastBall)) := by
    intro h
    have h1 := h.1
    rw [hvx] at h1
    norm_num at h1
  have hnr : ¬ rightPaddleHit (checkWallCollision (updateBallPosition exFastBall)) := by
    intro h
    have h1 := h.2.2.1
    rw [hx] at h1
    norm_num [ARENA_WIDTH, PADDLE_MARGIN, BALL_RADIUS] at h1
  have hfst : (physicsTick exFastBall).1 =
      checkPaddleCollision (checkWallCollision (updateBallPosition exFastBall)) := rfl
  rw [hfst, checkPaddleCollision_of_no_hit _ hnl hnr, ballSpeed_wall, ballSpeed_update]
  have hsum : exFastBall.ballVelX ^ 2 + exFastBall.ballVelY ^ 2 = (100 : ℝ) ^ 2 := by
    norm_num [exFastBall]
  unfold ballSpeed
  rw [hsum, Real.sqrt_sq (by norm_num : (0 : ℝ) ≤ 100)]
  norm_num [BALL_MAX_SPEED]

/-- C6, witness: a dead-center hit on the left paddle raises the speed from
0.8 while the post-tick speed stays within the maximum. -/
theorem physicsTick_speed_witness :
    ballSpeed (physicsTick exLeftHit).1 ≤ BALL_MAX_SPEED ∧
    ballSpeed exLeftHit < ballSpeed (physicsTick exLeftHit).1 := by
  have hsum : exLeftHit.ballVelX ^ 2 + exLeftHit.ballVelY ^ 2 = (0.8 : ℝ) ^ 2 := by
    norm_num [exLeftHit]
  have hpre : ballSpeed exLeftHit = 0.8 := by
    unfold ballSpeed
    rw [hsum, Real.sqrt_sq (by norm_num : (0 : ℝ) ≤ 0.8)]
  have hhit : leftPaddleHit (checkWallCollision (updateBallPosition exLeftHit)) := by
    norm_num [leftPaddleHit, checkWallCollision, updateBallPosition, exLeftHit,
      BALL_RADIUS, ARENA_HEIGHT, PADDLE_MARGIN, PADDLE_WIDTH, PADDLE_HEIGHT]
  have h := physicsTick_speed exLeftHit
  refine ⟨(h.1 ?_).2, (h.2 (Or.inl hhit)).2 ?_⟩
  · rw [hpre]
    norm_num [BALL_MAX_SPEED]
  · rw [hpre]
    norm_num [BALL_MAX_SPEED]

end Pong
